import Mathlib

/-!
Verification of the alertlib dispatch-resilience layer.

Shallow embedding of the Python sources of Khan/alertlib:
* `src/alertlib/base.py`        — Alert construction, rate limiting, summary derivation
* `src/alertlib/stackdriver.py` — metrics submission, retry/backoff classifier, name validation
* `src/alertlib/hipchat.py`     — chat send (dry-run behaviour)
* `src/alertlib/asana.py`       — name-resolution caches, priority tags
* `src/alertlib/jira.py`        — issue creation and duplicate suppression

Conventions: Python `dict`s are association lists (insertion order preserved,
assignment replaces in place); Python `time.time()` values are `ℚ`; severities
are the numeric `logging` levels (DEBUG = 10, INFO = 20, WARNING = 30,
ERROR = 40, CRITICAL = 50); network I/O is abstracted as oracles passed in as
function arguments, and the side effects a function performs are returned as
an explicit list of effect values.
-/

set_option autoImplicit false

namespace Alertlib

/-! ## Association-list model of Python dicts -/

/-- Python `m.get(k)`: first binding of `k` in the association list, if any. -/
def alookup {κ α : Type} [DecidableEq κ] : List (κ × α) → κ → Option α
  | [], _ => none
  | (k', v) :: rest, k => if k' = k then some v else alookup rest k

/-- Python `m[k] = v`: replace the binding of `k` in place, or append a new one
(Python dicts keep insertion order). -/
def ainsert {κ α : Type} [DecidableEq κ] : List (κ × α) → κ → α → List (κ × α)
  | [], k, v => [(k, v)]
  | (k', v') :: rest, k, v =>
    if k' = k then (k, v) :: rest else (k', v') :: ainsert rest k v

theorem alookup_ainsert_self {κ α : Type} [DecidableEq κ]
    (m : List (κ × α)) (k : κ) (v : α) : alookup (ainsert m k v) k = some v := by
  induction m with
  | nil => simp [ainsert, alookup]
  | cons hd tl ih =>
    obtain ⟨k', v'⟩ := hd
    by_cases h : k' = k <;> simp [ainsert, alookup, h, ih]

theorem alookup_ainsert_ne {κ α : Type} [DecidableEq κ]
    (m : List (κ × α)) (k k' : κ) (v : α) (h : k' ≠ k) :
    alookup (ainsert m k v) k' = alookup m k' := by
  induction m with
  | nil => simp [ainsert, alookup, Ne.symm h]
  | cons hd tl ih =>
    obtain ⟨k₀, v₀⟩ := hd
    by_cases h₀ : k₀ = k
    · subst h₀
      simp [ainsert, alookup, Ne.symm h]
    · simp only [ainsert, if_neg h₀]
      by_cases h₁ : k₀ = k' <;> simp [alookup, h₁, ih]

theorem ainsert_ne_nil {κ α : Type} [DecidableEq κ]
    (m : List (κ × α)) (k : κ) (v : α) : ainsert m k v ≠ [] := by
  cases m with
  | nil => simp [ainsert]
  | cons hd tl =>
    obtain ⟨k', v'⟩ := hd
    by_cases h : k' = k <;> simp [ainsert, h]

/-! ## `src/alertlib/base.py` — the Alert object -/

/-- The state of one `Alert` instance, as set up by `BaseMixin.__init__`
(`message`, `summary`, `severity`, `html`, `rate_limit`, `last_sent = {}`). -/
structure Alert where
  message : String
  summary : Option String
  severity : Nat
  html : Bool
  rate_limit : Option ℚ
  last_sent : List (String × ℚ)
deriving DecidableEq

/-- Python `BaseMixin._passed_rate_limit(service)`, with the clock (`time.time()`)
passed in as `now` and the mutation of `self.last_sent` returned as a new
`Alert` value.  `if not self.rate_limit` is Python truthiness: `None` and `0`
both skip limiting.  The sentinel for a service never sent to is `-100000`. -/
def passedRateLimit (a : Alert) (service : String) (now : ℚ) : Bool × Alert :=
  match a.rate_limit with
  | none => (true, a)
  | some r =>
    if r = 0 then (true, a)
    else if now - ((alookup a.last_sent service).getD (-100000)) > r then
      (true, { a with last_sent := ainsert a.last_sent service now })
    else (false, a)

/-- The last recorded send time for `service`, with the code's sentinel. -/
def lastOf (a : Alert) (service : String) : ℚ :=
  (alookup a.last_sent service).getD (-100000)

/-- The severity-to-prefix table in `BaseMixin._get_summary`
(`log_priority_to_prefix.get(self.severity, "")`). -/
def prefixForSeverity (sev : Nat) : String :=
  if sev = 10 then "(debug info) "
  else if sev = 20 then ""
  else if sev = 30 then "WARNING: "
  else if sev = 40 then "ERROR: "
  else if sev = 50 then "**CRITICAL ERROR**: "
  else ""

/-- The line-boundary characters of Python `str.splitlines`. -/
def isLineBreak (c : Char) : Bool :=
  c == '\n' || c == '\r' || c == Char.ofNat 0x0b || c == Char.ofNat 0x0c ||
  c == Char.ofNat 0x1c || c == Char.ofNat 0x1d || c == Char.ofNat 0x1e ||
  c == Char.ofNat 0x85 || c == Char.ofNat 0x2028 || c == Char.ofNat 0x2029

/-- Python `message.splitlines()[0]` for a non-empty message: the prefix before the
first line boundary. -/
def firstLine (s : String) : String :=
  String.mk (s.data.takeWhile (fun c => !isLineBreak c))

/-- Python `if '.' in summary: summary = summary[:summary.find('.')]`. -/
def truncAtDot (s : String) : String :=
  if s.data.contains '.' then String.mk (s.data.takeWhile (fun c => c ≠ '.')) else s

/-- Python `BaseMixin._get_summary`: explicit summary verbatim; `''` for an empty
message; `''` for html; otherwise first line, truncated to 60 characters,
truncated at the first `.`, with the severity label prepended. -/
def getSummary (a : Alert) : String :=
  match a.summary with
  | some s => s
  | none =>
    if a.message = "" then ""
    else if a.html then ""
    else
      prefixForSeverity a.severity ++
        truncAtDot (String.mk ((firstLine a.message).data.take 60))

/-- The spec's own description of summary derivation (§4.1 of spec.md),
written from the spec's words for comparison with `getSummary`:
"if `html` is true, return empty ... Otherwise take the first line of
`message`, truncate to 60 characters, then truncate further at the first `.`
..., then prepend a severity label".  It has no empty-message case. -/
def deriveSummarySpec (message : String) (severity : Nat) (html : Bool) : String :=
  if html then ""
  else prefixForSeverity severity ++
    truncAtDot (String.mk ((firstLine message).data.take 60))

/-! ### C1 — rate limiting -/

/-- C1: `_passed_rate_limit` returns true when `rate_limit` is unset or zero
(state untouched); otherwise it returns true exactly when `now` minus the last
recorded send time for that backend name (sentinel `-100000` when none) is
strictly greater than `rate_limit`, recording `now` for that backend name on
true (other backend names untouched) and returning false with unchanged state
otherwise; and state is per backend name and per Alert instance: after a
successful send on one instance, a later call inside the window is blocked on
that instance while a fresh instance with the same limit still passes. -/
theorem passedRateLimit_correct :
    (∀ (a : Alert) (s : String) (now : ℚ), a.rate_limit = none →
        passedRateLimit a s now = (true, a)) ∧
    (∀ (a : Alert) (s : String) (now : ℚ), a.rate_limit = some 0 →
        passedRateLimit a s now = (true, a)) ∧
    (∀ (a : Alert) (s : String) (now r : ℚ), a.rate_limit = some r → r ≠ 0 →
        ((passedRateLimit a s now).1 = true ↔ now - lastOf a s > r)) ∧
    (∀ (a : Alert) (s : String) (now r : ℚ), a.rate_limit = some r → r ≠ 0 →
        now - lastOf a s > r →
        lastOf (passedRateLimit a s now).2 s = now ∧
        ∀ s' : String, s' ≠ s →
          alookup (passedRateLimit a s now).2.last_sent s' = alookup a.last_sent s') ∧
    (∀ (a : Alert) (s : String) (now r : ℚ), a.rate_limit = some r → r ≠ 0 →
        ¬(now - lastOf a s > r) → passedRateLimit a s now = (false, a)) ∧
    (∀ (r t t' : ℚ) (s : String) (msg : String), 0 < r → t + 100000 > r → t' - t ≤ r →
        (passedRateLimit (passedRateLimit ⟨msg, none, 20, false, some r, []⟩ s t).2 s t').1
          = false ∧
        (t' + 100000 > r →
          (passedRateLimit ⟨msg, none, 20, false, some r, []⟩ s t').1 = true)) := by
  refine ⟨?_, ?_, ?_, ?_, ?_, ?_⟩
  · intro a s now h
    simp [passedRateLimit, h]
  · intro a s now h
    simp [passedRateLimit, h]
  · intro a s now r h hr
    simp only [passedRateLimit, h, lastOf]
    by_cases hgt : now - ((alookup a.last_sent s).getD (-100000)) > r <;>
      simp [hr, hgt]
  · intro a s now r h hr hgt
    simp only [passedRateLimit, h, lastOf] at hgt ⊢
    rw [if_neg hr, if_pos hgt]
    refine ⟨by simp [alookup_ainsert_self], ?_⟩
    intro s' hne
    simpa using alookup_ainsert_ne a.last_sent s s' now hne
  · intro a s now r h hr hle
    simp only [passedRateLimit, h, lastOf] at hle ⊢
    rw [if_neg hr, if_neg hle]
  · intro r t t' s msg hr ht hwin
    have hrne : r ≠ 0 := ne_of_gt hr
    have hfirst : t - ((alookup ([] : List (String × ℚ)) s).getD (-100000)) > r := by
      simp only [alookup, Option.getD_none]
      linarith
    constructor
    · simp only [passedRateLimit, if_neg hrne, if_pos hfirst]
      have hlook : (alookup (ainsert ([] : List (String × ℚ)) s t) s).getD (-100000) = t := by
        simp [alookup_ainsert_self]
      have hno : ¬ t' - ((alookup (ainsert ([] : List (String × ℚ)) s t) s).getD (-100000)) > r := by
        rw [hlook]; linarith
      simp [if_neg hrne, if_neg hno]
    · intro ht'
      have hsecond : t' - ((alookup ([] : List (String × ℚ)) s).getD (-100000)) > r := by
        simp only [alookup, Option.getD_none]
        linarith
      simp [passedRateLimit, if_neg hrne, if_pos hsecond]

/-- Witness for C1 at concrete inputs: rate limit 10, first send at time 0,
second attempt at time 5 is blocked on the same instance but passes on a
fresh instance. -/
theorem passedRateLimit_correct_witness :
    (passedRateLimit
        (passedRateLimit ⟨"m", none, 20, false, some 10, []⟩ "hipchat" 0).2
        "hipchat" 5).1 = false ∧
    (5 + 100000 > (10 : ℚ) →
      (passedRateLimit ⟨"m", none, 20, false, some 10, []⟩ "hipchat" 5).1 = true) :=
  passedRateLimit_correct.2.2.2.2.2 10 0 5 "hipchat" "m"
    (by norm_num) (by norm_num) (by norm_num)

/-! ### C10 — explicit summary is returned verbatim -/

/-- C10: when an explicit summary was supplied (any value other than `None`,
including the empty string), `_get_summary` returns it verbatim for every
message, severity and html flag; and the empty-message guard (which returns
`""` without a severity prefix) runs only on the derivation path, i.e. when
the summary is `None`. -/
theorem getSummary_explicit_verbatim :
    (∀ (s msg : String) (sev : Nat) (h : Bool) (rl : Option ℚ) (ls : List (String × ℚ)),
        getSummary ⟨msg, some s, sev, h, rl, ls⟩ = s) ∧
    (∀ (sev : Nat) (h : Bool) (rl : Option ℚ) (ls : List (String × ℚ)),
        getSummary ⟨"", none, sev, h, rl, ls⟩ = "") := by
  constructor
  · intro s msg sev h rl ls
    rfl
  · intro sev h rl ls
    rfl

/-! ### C5 — summary derivation -/

/-- C5 counterexample: the claim says the derived summary of every non-html
message is the truncated first line with the severity label prepended; but on
the empty message with severity WARNING (30) the code returns `""` while the
claimed derivation gives `"WARNING: "`. -/
theorem getSummary_empty_message_counterexample :
    getSummary ⟨"", none, 30, false, none, []⟩ = "" ∧
    deriveSummarySpec "" 30 false = "WARNING: " ∧
    getSummary ⟨"", none, 30, false, none, []⟩ ≠ deriveSummarySpec "" 30 false := by
  refine ⟨rfl, rfl, ?_⟩
  decide

/-- C5 amended: with no explicit summary, the derived summary is `""` for an
empty message (with no severity prefix); otherwise it is empty when `html` is
true, and else the first line truncated to 60 characters, further truncated at
the first `.`, with the severity label prepended — `""` for INFO (20),
`"WARNING: "` (30), `"ERROR: "` (40), `"**CRITICAL ERROR**: "` (50),
`"(debug info) "` for DEBUG (10), and `""` for any other severity. -/
theorem getSummary_derivation :
    (∀ (msg : String) (sev : Nat) (h : Bool) (rl : Option ℚ) (ls : List (String × ℚ)),
        getSummary ⟨msg, none, sev, h, rl, ls⟩ =
          if msg = "" then "" else deriveSummarySpec msg sev h) ∧
    prefixForSeverity 20 = "" ∧
    prefixForSeverity 30 = "WARNING: " ∧
    prefixForSeverity 40 = "ERROR: " ∧
    prefixForSeverity 50 = "**CRITICAL ERROR**: " ∧
    prefixForSeverity 10 = "(debug info) " ∧
    (∀ sev : Nat, sev ≠ 10 → sev ≠ 20 → sev ≠ 30 → sev ≠ 40 → sev ≠ 50 →
        prefixForSeverity sev = "") := by
  refine ⟨?_, rfl, rfl, rfl, rfl, rfl, ?_⟩
  · intro msg sev h rl ls
    by_cases hmsg : msg = ""
    · simp [getSummary, hmsg]
    · by_cases hh : h <;> simp [getSummary, deriveSummarySpec, hmsg, hh]
  · intro sev h10 h20 h30 h40 h50
    simp [prefixForSeverity, h10, h20, h30, h40, h50]

/-- Witness for C5 (amended) at a concrete input: a custom severity (25)
outside the five known levels gets the empty prefix. -/
theorem getSummary_derivation_witness : prefixForSeverity 25 = "" :=
  getSummary_derivation.2.2.2.2.2.2 25 (by decide) (by decide) (by decide)
    (by decide) (by decide)

/-! ## `src/alertlib/stackdriver.py` — the retry/backoff classifier -/

/-- Substring membership, Python's `needle in haystack` on the character
list: does `pat` start at this position? -/
def startsWithChars : List Char → List Char → Bool
  | [], _ => true
  | _ :: _, [] => false
  | a :: as, b :: bs => a == b && startsWithChars as bs

/-- Does `pat` occur anywhere in `hay`? -/
def containsChars (pat : List Char) : List Char → Bool
  | [] => pat.isEmpty
  | c :: rest => startsWithChars pat (c :: rest) || containsChars pat rest

/-- Python `pat in s`. -/
def strContains (s pat : String) : Bool :=
  containsChars pat.data s.data

/-- The 500 message treated as a benign duplicate (string literal from
`_call_stackdriver_with_retries`, concatenated across two source lines). -/
def sdOlderPointMsg : String :=
  "One or more of the points specified was older than the most recent stored point"

/-- The 400 message treated as a benign duplicate. -/
def sdMoreRecentMsg : String := "Timeseries data must be more recent"

/-- The 400 message treated as transient (clock skew). -/
def sdNotWrittenMsg : String := "One or more TimeSeries could not be written"

/-- The exceptions `fn()` can raise, as classified by the `except` clauses of
`_call_stackdriver_with_retries`: `connErr` stands for
`socket.error` / `http_client.HTTPException` / `oauth2client.client.Error`
(the first clause); `httpError status msg` is `apiclient.errors.HttpError`
with `int(e.resp['status'])` and `str(e)`; `otherExc` is any exception type
not caught by either clause, which propagates uncaught. -/
inductive Exc where
  | connErr (info : String)
  | httpError (status : Nat) (msg : String)
  | otherExc (info : String)
deriving DecidableEq

/-- What one invocation of `fn()` does. -/
inductive AttemptOutcome where
  | success
  | raises (e : Exc)
deriving DecidableEq

/-- How `_call_stackdriver_with_retries` itself ends: a normal return (of
`fn()`'s value or of the benign-duplicate `return`), or an exception
propagating to the caller. -/
inductive CallOutcome where
  | returned
  | raised (e : Exc)
deriving DecidableEq

/-- The loop body of `_call_stackdriver_with_retries`, with `fn`'s behaviour
on each attempt given by attempt index.  `i` is the loop variable,
`remaining = num_retries - i` (so `remaining = 0` on the final attempt, where
both `except` clauses re-raise before any classification).  Returns the
outcome, the number of times `fn` was invoked from this point on, and the
list of `time.sleep` durations performed (the code sleeps a flat `wait_time`
at the bottom of every iteration that falls through). -/
def sdLoop (fn : Nat → AttemptOutcome) (w : ℚ) : Nat → Nat → CallOutcome × Nat × List ℚ
  | i, remaining =>
    match fn i with
    | .success => (.returned, 1, [])
    | .raises (.connErr s) =>
      match remaining with
      | 0 => (.raised (.connErr s), 1, [])
      | r + 1 =>
        let rest := sdLoop fn w (i + 1) r
        (rest.1, rest.2.1 + 1, w :: rest.2.2)
    | .raises (.httpError code msg) =>
      match remaining with
      | 0 => (.raised (.httpError code msg), 1, [])
      | r + 1 =>
        if code = 500 ∧ strContains msg sdOlderPointMsg then (.returned, 1, [])
        else if code = 403 ∨ 500 ≤ code then
          let rest := sdLoop fn w (i + 1) r
          (rest.1, rest.2.1 + 1, w :: rest.2.2)
        else if code = 400 ∧ strContains msg sdMoreRecentMsg then (.returned, 1, [])
        else if code = 400 ∧ strContains msg sdNotWrittenMsg then
          let rest := sdLoop fn w (i + 1) r
          (rest.1, rest.2.1 + 1, w :: rest.2.2)
        else (.raised (.httpError code msg), 1, [])
    | .raises (.otherExc s) => (.raised (.otherExc s), 1, [])

/-- Python `_call_stackdriver_with_retries(fn, num_retries, wait_time)`:
`for i in range(num_retries + 1)` starting at attempt 0 with `num_retries`
retries still available. -/
def callStackdriverWithRetries (fn : Nat → AttemptOutcome) (numRetries : Nat)
    (waitTime : ℚ) : CallOutcome × Nat × List ℚ :=
  sdLoop fn waitTime 0 numRetries

/-- The exceptions the classifier retries (when attempts remain): the
connection-level class, 403, 5xx without the benign 500 message, and the
clock-skew 400. -/
def retriesExc : Exc → Bool
  | .connErr _ => true
  | .httpError code msg =>
    if code = 500 ∧ strContains msg sdOlderPointMsg then false
    else if code = 403 ∨ 500 ≤ code then true
    else if code = 400 ∧ strContains msg sdMoreRecentMsg then false
    else if code = 400 ∧ strContains msg sdNotWrittenMsg then true
    else false
  | .otherExc _ => false

/-- The exceptions the classifier treats as benign duplicates (success): the
500 carrying `sdOlderPointMsg` and the 400 carrying `sdMoreRecentMsg`. -/
def benignExc : Exc → Bool
  | .httpError code msg =>
    if code = 500 ∧ strContains msg sdOlderPointMsg then true
    else if code = 403 ∨ 500 ≤ code then false
    else if code = 400 ∧ strContains msg sdMoreRecentMsg then true
    else false
  | _ => false

theorem sdLoop_step_retry (fn : Nat → AttemptOutcome) (w : ℚ) (i r : Nat) (e : Exc)
    (hfn : fn i = .raises e) (hr : retriesExc e = true) :
    sdLoop fn w i (r + 1) =
      ((sdLoop fn w (i + 1) r).1, (sdLoop fn w (i + 1) r).2.1 + 1,
        w :: (sdLoop fn w (i + 1) r).2.2) := by
  cases e with
  | connErr s => rw [sdLoop, hfn]
  | httpError code msg =>
    rw [sdLoop, hfn]
    simp only [retriesExc] at hr
    split at hr
    · exact absurd hr (by simp)
    · split at hr
      · rename_i h1 h2
        simp only [if_neg h1, if_pos h2]
      · split at hr
        · exact absurd hr (by simp)
        · split at hr
          · rename_i h1 h2 h3 h4
            simp only [if_neg h1, if_neg h2, if_neg h3, if_pos h4]
          · exact absurd hr (by simp)
  | otherExc s => simp [retriesExc] at hr

theorem sdLoop_step_benign (fn : Nat → AttemptOutcome) (w : ℚ) (i r : Nat) (e : Exc)
    (hfn : fn i = .raises e) (hb : benignExc e = true) :
    sdLoop fn w i (r + 1) = (.returned, 1, []) := by
  cases e with
  | connErr s => simp [benignExc] at hb
  | httpError code msg =>
    rw [sdLoop, hfn]
    simp only [benignExc] at hb
    split at hb
    · rename_i h1
      simp only [if_pos h1]
    · split at hb
      · exact absurd hb (by simp)
      · split at hb
        · rename_i h1 h2 h3
          simp only [if_neg h1, if_neg h2, if_pos h3]
        · exact absurd hb (by simp)
  | otherExc s => simp [benignExc] at hb

theorem sdLoop_last_raises (fn : Nat → AttemptOutcome) (w : ℚ) (i : Nat) (e : Exc)
    (hfn : fn i = .raises e) :
    sdLoop fn w i 0 = (.raised e, 1, []) := by
  cases e with
  | connErr s => rw [sdLoop, hfn]
  | httpError code msg => rw [sdLoop, hfn]
  | otherExc s => rw [sdLoop, hfn]

/-! ### C3 — retry exhaustion -/

theorem sdLoop_all_connErr (fn : Nat → AttemptOutcome) (w : ℚ) (e : Nat → String) :
    ∀ (r i : Nat), (∀ j : Nat, j ≤ r → fn (i + j) = .raises (.connErr (e (i + j)))) →
    sdLoop fn w i r = (.raised (.connErr (e (i + r))), r + 1, List.replicate r w) := by
  intro r
  induction r with
  | zero =>
    intro i h
    have h0 := h 0 (le_refl 0)
    simp only [Nat.add_zero] at h0 ⊢
    exact sdLoop_last_raises fn w i _ h0
  | succ r ih =>
    intro i h
    have h0 := h 0 (Nat.zero_le _)
    simp only [Nat.add_zero] at h0
    rw [sdLoop_step_retry fn w i r _ h0 rfl]
    have hrec := ih (i + 1) (fun j hj => by
      have := h (j + 1) (Nat.succ_le_succ hj)
      simpa [Nat.add_assoc, Nat.add_comm 1 j] using this)
    rw [hrec]
    simp [Nat.add_assoc, Nat.add_comm 1 r, List.replicate_succ]

/-- C3: if every attempt raises an error from the recognized transient set
(here a connection-level error, e.g. a socket error),
`_call_stackdriver_with_retries` invokes `fn` exactly `num_retries + 1`
times, sleeps the flat `wait_time` between consecutive attempts (so
`num_retries` sleeps, all equal to `wait_time`), and re-raises the error of
the last attempt. -/
theorem callStackdriver_exhaustion (fn : Nat → AttemptOutcome) (numRetries : Nat)
    (w : ℚ) (e : Nat → String)
    (h : ∀ i : Nat, i ≤ numRetries → fn i = .raises (.connErr (e i))) :
    callStackdriverWithRetries fn numRetries w =
      (.raised (.connErr (e numRetries)), numRetries + 1, List.replicate numRetries w) := by
  have := sdLoop_all_connErr fn w e numRetries 0 (fun j hj => by simpa using h j hj)
  simpa [callStackdriverWithRetries] using this

/-- Witness for C3: with `num_retries = 2` and a function that always raises
a socket error, there are exactly 3 attempts, 2 flat sleeps, and the last
error is re-raised. -/
theorem callStackdriver_exhaustion_witness :
    callStackdriverWithRetries (fun _ => .raises (.connErr "socket.error")) 2 (1/2) =
      (.raised (.connErr "socket.error"), 3, List.replicate 2 (1/2)) :=
  callStackdriver_exhaustion (fun _ => .raises (.connErr "socket.error")) 2 (1/2)
    (fun _ => "socket.error") (fun _ _ => rfl)

/-! ### C2 — benign duplicates -/

/-- C2 counterexample: the claim says a benign-duplicate error (HTTP 400
"Timeseries data must be more recent") yields an immediate successful return
*regardless of which attempt — first, middle, or last allowed — observed it*.
But on the final allowed attempt the code re-raises before classifying
(`if i == num_retries: raise`): with `num_retries = 0` the very first benign
400 is re-raised rather than returned. -/
theorem callStackdriver_benign_last_attempt_raises :
    callStackdriverWithRetries
        (fun _ => .raises (.httpError 400 sdMoreRecentMsg)) 0 (1/2) =
      (.raised (.httpError 400 sdMoreRecentMsg), 1, []) ∧
    (callStackdriverWithRetries
        (fun _ => .raises (.httpError 400 sdMoreRecentMsg)) 0 (1/2)).1 ≠
      .returned := by
  refine ⟨rfl, ?_⟩
  intro h
  exact CallOutcome.noConfusion h

theorem sdLoop_benign_after_retries (fn : Nat → AttemptOutcome) (w : ℚ)
    (ex : Nat → Exc) :
    ∀ (k i r : Nat),
      (∀ j : Nat, j < k → fn (i + j) = .raises (ex (i + j)) ∧ retriesExc (ex (i + j)) = true) →
      fn (i + k) = .raises (ex (i + k)) → benignExc (ex (i + k)) = true →
      k < r →
      sdLoop fn w i r = (.returned, k + 1, List.replicate k w) := by
  intro k
  induction k with
  | zero =>
    intro i r hpre hk hb hlt
    obtain ⟨r', rfl⟩ : ∃ r', r = r' + 1 := ⟨r - 1, by omega⟩
    simp only [Nat.add_zero] at hk hb
    exact sdLoop_step_benign fn w i r' _ hk hb
  | succ k ih =>
    intro i r hpre hk hb hlt
    obtain ⟨r', rfl⟩ : ∃ r', r = r' + 1 := ⟨r - 1, by omega⟩
    have h0 := hpre 0 (Nat.succ_pos k)
    simp only [Nat.add_zero] at h0
    rw [sdLoop_step_retry fn w i r' _ h0.1 h0.2]
    have hrec := ih (i + 1) r'
      (fun j hj => by
        have := hpre (j + 1) (Nat.succ_lt_succ hj)
        simpa [Nat.add_assoc, Nat.add_comm 1 j] using this)
      (by simpa [Nat.add_assoc, Nat.add_comm 1 k] using hk)
      (by simpa [Nat.add_assoc, Nat.add_comm 1 k] using hb)
      (by omega)
    rw [hrec]
    simp [List.replicate_succ]

/-- C2 amended: a benign-duplicate error (HTTP 400 "Timeseries data must be
more recent", or HTTP 500 reporting a point older than the most recent stored
point) observed on any attempt *before the last allowed one* — after any
sequence of retried errors — makes `_call_stackdriver_with_retries` return
success immediately, with no further invocation of `fn`; on the last allowed
attempt the error is instead re-raised (see the counterexample). -/
theorem callStackdriver_benign_duplicate_returns (fn : Nat → AttemptOutcome)
    (numRetries : Nat) (w : ℚ) (ex : Nat → Exc) (k : Nat)
    (hpre : ∀ j : Nat, j < k → fn j = .raises (ex j) ∧ retriesExc (ex j) = true)
    (hk : fn k = .raises (ex k)) (hb : benignExc (ex k) = true)
    (hlt : k < numRetries) :
    callStackdriverWithRetries fn numRetries w =
      (.returned, k + 1, List.replicate k w) := by
  have := sdLoop_benign_after_retries fn w ex k 0 numRetries
    (fun j hj => by simpa using hpre j hj) (by simpa using hk) (by simpa using hb) hlt
  simpa [callStackdriverWithRetries] using this

/-- Witness for C2 (amended): one socket error, then the benign 400 on
attempt index 1 with 9 retries allowed: the call returns success after
exactly 2 attempts and 1 sleep. -/
theorem callStackdriver_benign_duplicate_returns_witness :
    callStackdriverWithRetries
        (fun i => if i = 0 then .raises (.connErr "socket.error")
                  else .raises (.httpError 400 sdMoreRecentMsg)) 9 (1/2) =
      (.returned, 2, List.replicate 1 (1/2)) :=
  callStackdriver_benign_duplicate_returns
    (fun i => if i = 0 then .raises (.connErr "socket.error")
              else .raises (.httpError 400 sdMoreRecentMsg)) 9 (1/2)
    (fun i => if i = 0 then .connErr "socket.error"
              else .httpError 400 sdMoreRecentMsg) 1
    (fun j hj => by
      have hj0 : j = 0 := by omega
      subst hj0
      exact ⟨rfl, rfl⟩)
    rfl (by decide) (by omega)

/-! ## `src/alertlib/stackdriver.py` — metric names and `send_to_stackdriver` -/

/-- The fixed namespace added by `_get_custom_metric_name`
(`prefix = 'custom.googleapis.com/'`, 22 characters). -/
def customMetricNamespace : String := "custom.googleapis.com/"

/-- One character of `re.sub(r'[^\w_.]', '_', name)`: word characters
(modelled as ASCII alphanumerics and underscore, per Python 2 `\w`),
underscore and dot are kept, everything else becomes `_`. -/
def sanitizeChar (c : Char) : Char :=
  if c.isAlphanum || c == '_' || c == '.' then c else '_'

def sanitizeMetricName (s : String) : String :=
  String.mk (s.data.map sanitizeChar)

/-- Python `'Metric name too long: %d (limit %d): %s' % (len(name), maxlen, name)`. -/
def tooLongMsg (name : String) : String :=
  "Metric name too long: " ++ toString name.length ++ " (limit " ++
    toString (100 - customMetricNamespace.length) ++ "): " ++ name

/-- Python `_get_custom_metric_name(name)`: raise `ValueError` when the raw name is
longer than `100 - len(prefix)` (= 78, i.e. 100 characters total after
prefixing), otherwise the prefixed, sanitized name. -/
def getCustomMetricName (name : String) : Except String String :=
  if name.length > 100 - customMetricNamespace.length then .error (tooLongMsg name)
  else .ok (customMetricNamespace ++ sanitizeMetricName name)

/-- The dict built by `_get_timeseries_data` (the RFC 3339 rendering of the
timestamp is abstracted: the resolved numeric time is carried instead).
`metricLabels = []`/`resource = none` stand for the keys being absent. -/
structure TimeseriesData where
  metricType : String
  metricLabels : List (String × String)
  resource : Option (String × List (String × String))
  value : ℚ
  pointTime : ℚ
deriving DecidableEq

/-- Python `_get_timeseries_data(...)`: `when = time.time()` when `None`, then the
metric name is validated/normalized (which can raise) and the dict built. -/
def getTimeseriesData (metricName : String) (metricLabels : List (String × String))
    (mrType : Option String) (mrLabels : List (String × String))
    (value : ℚ) (whenT : Option ℚ) (now : ℚ) : Except String TimeseriesData :=
  let t := whenT.getD now
  match getCustomMetricName metricName with
  | .error e => .error e
  | .ok nm => .ok ⟨nm, metricLabels, mrType.map (fun ty => (ty, mrLabels)), value, t⟩

/-- The observable effects of `send_to_stackdriver`: an informational log
line (test mode) or the network submission performed by
`send_datapoints_to_stackdriver` (which runs the retry loop of
`callStackdriverWithRetries` around it). -/
inductive SdEffect where
  | logInfo (msg : String)
  | netCall (timeseries : List TimeseriesData)
deriving DecidableEq

/-- The result of `send_to_stackdriver`: the effects performed, and the
uncaught exception message if one propagated to the caller (`none` means a
normal return).  A raised validation error leaves `effects = []`. -/
structure SdResult where
  effects : List SdEffect
  raised : Option String
deriving DecidableEq

/-- Python `Mixin.send_to_stackdriver`: rate limit first, then
`_get_timeseries_data` (whose `ValueError` propagates — note this runs
*before* the test-mode check), then either the test-mode log line or the real
submission. -/
def sendToStackdriver (testMode : Bool) (a : Alert) (metricName : String)
    (value : ℚ) (metricLabels : List (String × String)) (mrType : Option String)
    (mrLabels : List (String × String)) (whenT : Option ℚ) (now : ℚ) :
    SdResult × Alert :=
  match passedRateLimit a "stackdriver" now with
  | (false, a') => (⟨[], none⟩, a')
  | (true, a') =>
    match getTimeseriesData metricName metricLabels mrType mrLabels value whenT now with
    | .error e => (⟨[], some e⟩, a')
    | .ok ts =>
      if testMode then
        (⟨[.logInfo ("alertlib: would send to stackdriver: metric_name: " ++
            metricName ++ ", value: " ++ toString value)], none⟩, a')
      else (⟨[.netCall [ts]], none⟩, a')

/-! ## `src/alertlib/hipchat.py` — `send_to_hipchat` -/

/-- Python `_LOG_PRIORITY_TO_HIPCHAT_COLOR`. -/
def hipchatColorMap : List (Nat × String) :=
  [(10, "gray"), (20, "purple"), (30, "yellow"), (40, "red"), (50, "red")]

/-- Python `BaseMixin._mapped_severity(severity_map)`:
`severity_map.get(self.severity, severity_map[logging.INFO])` (every map this
is used with has an entry for INFO = 20, so the inner `getD ""` is inert). -/
def mappedSeverity (m : List (Nat × String)) (sev : Nat) : String :=
  (alookup m sev).getD ((alookup m 20).getD "")

/-- Python `_nix_bad_emoticons`: replace `'8)'` with `'8' + zero-width space + ')'`. -/
def nixBadEmoticons (t : String) : String :=
  t.replace "8)" ("8" ++ String.mk [Char.ofNat 0x200B] ++ ")")

/-- The observable effects of `send_to_hipchat`: an informational log line
(test mode), a POST to the HipChat rooms/message API (via
`_post_to_hipchat`), or a `time.sleep`. -/
inductive HcEffect where
  | logInfo (msg : String)
  | post (room sender message msgFormat : String) (notify : Nat) (color : String)
  | sleepSecs (secs : ℚ)
deriving DecidableEq

/-- Python `Mixin.send_to_hipchat`: rate limit, severity-derived color and notify
defaults, then — when `self.summary` is truthy — the summary send (log line
in test mode; POST plus a 1-second sleep otherwise), then the body send of
the message truncated to 9000 characters (log line in test mode). -/
def sendToHipchat (testMode : Bool) (a : Alert) (roomName : String)
    (color : Option String) (notify : Option Bool) (sender : String) (now : ℚ) :
    List HcEffect × Alert :=
  match passedRateLimit a "hipchat" now with
  | (false, a') => ([], a')
  | (true, a') =>
    let colorV := color.getD (mappedSeverity hipchatColorMap a.severity)
    let notifyB := notify.getD (a.severity = 50)
    let s := a.summary.getD ""
    let summaryEffects :=
      if s ≠ "" then
        if testMode then
          [HcEffect.logInfo ("alertlib: would send to hipchat room " ++ roomName ++
            ": " ++ s)]
        else
          [HcEffect.post roomName sender (nixBadEmoticons s) "text" 0 colorV,
           HcEffect.sleepSecs 1]
      else []
    let message := String.mk (a.message.data.take 9000)
    let bodyEffects :=
      if testMode then
        [HcEffect.logInfo ("alertlib: would send to hipchat room " ++ roomName ++
          ": " ++ message)]
      else
        [HcEffect.post roomName sender
          (if a.html then message else nixBadEmoticons message)
          (if a.html then "html" else "text")
          (if notifyB then 1 else 0) colorV]
    (summaryEffects ++ bodyEffects, a')

/-! ### C6 — dry-run isolation -/

/-- A 79-character metric name, over the 78-character limit. -/
def overlongMetricName : String := String.mk (List.replicate 79 'a')

/-- C6 counterexample: the claim says that in dry-run (test) mode no send can
fail; but `send_to_stackdriver` computes `_get_timeseries_data` *before* the
test-mode check, so an over-long metric name raises `ValueError` even in
dry-run mode. -/
theorem sendToStackdriver_dry_run_can_raise :
    (sendToStackdriver true ⟨"m", none, 20, false, none, []⟩ overlongMetricName
        1 [] none [] none 0).1 =
      ⟨[], some (tooLongMsg overlongMetricName)⟩ := by
  rfl

/-- C6 amended: in dry-run (test) mode, a backend send performs no network
call, emits exactly one informational log record per logical send, and
returns success, while rate-limit checking still executes (a rate-limited
call emits nothing at all) — *except* that `send_to_stackdriver`'s
metric-name validation runs before the dry-run check and can still raise
(see the counterexample).  Concretely: `send_to_stackdriver` with a valid
name emits one log line and no network call; `send_to_hipchat` emits only
log lines — one per logical send, i.e. two when a summary is present and one
otherwise — and no POST and no sleep. -/
theorem dry_run_isolation :
    (∀ (a : Alert) (name : String) (value : ℚ)
        (mls : List (String × String)) (mrt : Option String)
        (mrls : List (String × String)) (whenT : Option ℚ) (now : ℚ),
        a.rate_limit = none → name.length ≤ 78 →
        (sendToStackdriver true a name value mls mrt mrls whenT now).1 =
          ⟨[SdEffect.logInfo ("alertlib: would send to stackdriver: metric_name: " ++
              name ++ ", value: " ++ toString value)], none⟩) ∧
    (∀ (testMode : Bool) (a : Alert) (name : String) (value : ℚ)
        (mls : List (String × String)) (mrt : Option String)
        (mrls : List (String × String)) (whenT : Option ℚ) (now r : ℚ),
        a.rate_limit = some r → r ≠ 0 → ¬(now - lastOf a "stackdriver" > r) →
        (sendToStackdriver testMode a name value mls mrt mrls whenT now).1 =
          ⟨[], none⟩) ∧
    (∀ (a : Alert) (room : String) (color : Option String) (notify : Option Bool)
        (sender : String) (now : ℚ), a.rate_limit = none →
        (∀ e ∈ (sendToHipchat true a room color notify sender now).1,
            ∃ m, e = HcEffect.logInfo m) ∧
        (sendToHipchat true a room color notify sender now).1.length =
          (if a.summary.getD "" ≠ "" then 2 else 1)) := by
  refine ⟨?_, ?_, ?_⟩
  · intro a name value mls mrt mrls whenT now hrl hlen
    have h78 : ¬ (name.length > 100 - customMetricNamespace.length) := by
      have h22 : customMetricNamespace.length = 22 := rfl
      omega
    simp [sendToStackdriver, passedRateLimit, hrl, getTimeseriesData,
      getCustomMetricName, h78]
  · intro testMode a name value mls mrt mrls whenT now r hrl hr hgt
    simp only [lastOf] at hgt
    simp [sendToStackdriver, passedRateLimit, hrl, if_neg hr, if_neg hgt]
  · intro a room color notify sender now hrl
    constructor
    · intro e he
      by_cases hs : a.summary.getD "" ≠ ""
      · simp [sendToHipchat, passedRateLimit, hrl, hs] at he
        rcases he with he | he <;> exact ⟨_, he⟩
      · simp [sendToHipchat, passedRateLimit, hrl, hs] at he
        exact ⟨_, he⟩
    · simp only [sendToHipchat, passedRateLimit, hrl]
      by_cases hs : a.summary.getD "" ≠ "" <;> simp [hs]

/-- Witness for C6 (amended) at concrete inputs: a dry-run
`send_to_stackdriver` with a valid name emits exactly the one log record. -/
theorem dry_run_isolation_witness :
    (sendToStackdriver true ⟨"m", none, 20, false, none, []⟩ "stats.test" 4
        [] none [] none 0).1 =
      ⟨[SdEffect.logInfo ("alertlib: would send to stackdriver: metric_name: " ++
          "stats.test" ++ ", value: " ++ toString (4 : ℚ))], none⟩ :=
  dry_run_isolation.1 ⟨"m", none, 20, false, none, []⟩ "stats.test" 4 [] none []
    none 0 rfl (by decide)

/-! ### C7 — metric name validation -/

/-- C7: a metric name longer than 78 characters (100 after the fixed
22-character namespace) makes the submission raise the `ValueError` with no
effect performed — in particular no network attempt, so the retry loop never
runs on it; an accepted name reaches the submitted payload as
`custom.googleapis.com/` plus the name with every character outside the
allowed set replaced by `_`, so `#` and `%` never appear in the payload. -/
theorem metric_name_validation :
    (∀ (testMode : Bool) (a : Alert) (name : String) (value : ℚ)
        (mls : List (String × String)) (mrt : Option String)
        (mrls : List (String × String)) (whenT : Option ℚ) (now : ℚ),
        a.rate_limit = none → 78 < name.length →
        (sendToStackdriver testMode a name value mls mrt mrls whenT now).1 =
          ⟨[], some (tooLongMsg name)⟩) ∧
    (∀ (a : Alert) (name : String) (value : ℚ) (now : ℚ),
        a.rate_limit = none → name.length ≤ 78 →
        (sendToStackdriver false a name value [] none [] none now).1 =
          ⟨[SdEffect.netCall
              [⟨customMetricNamespace ++ sanitizeMetricName name, [], none, value, now⟩]],
            none⟩) ∧
    (∀ (name : String) (c : Char), c ∈ (sanitizeMetricName name).data →
        c ≠ '#' ∧ c ≠ '%') ∧
    sanitizeChar '#' = '_' ∧ sanitizeChar '%' = '_' := by
  refine ⟨?_, ?_, ?_, rfl, rfl⟩
  · intro testMode a name value mls mrt mrls whenT now hrl hlen
    have h78 : name.length > 100 - customMetricNamespace.length := by
      have h22 : customMetricNamespace.length = 22 := rfl
      omega
    simp [sendToStackdriver, passedRateLimit, hrl, getTimeseriesData,
      getCustomMetricName, h78]
  · intro a name value now hrl hlen
    have h78 : ¬ (name.length > 100 - customMetricNamespace.length) := by
      have h22 : customMetricNamespace.length = 22 := rfl
      omega
    simp [sendToStackdriver, passedRateLimit, hrl, getTimeseriesData,
      getCustomMetricName, h78]
  · intro name c hc
    simp only [sanitizeMetricName, List.mem_map] at hc
    obtain ⟨c₀, _, rfl⟩ := hc
    unfold sanitizeChar
    by_cases hcase : (c₀.isAlphanum || c₀ == '_' || c₀ == '.') = true
    · rw [if_pos hcase]
      constructor
      · rintro rfl
        simp only [Char.isAlphanum, Char.isAlpha, Char.isUpper, Char.isLower,
          Char.isDigit] at hcase
        revert hcase
        decide
      · rintro rfl
        revert hcase
        decide
    · rw [if_neg hcase]
      exact ⟨by decide, by decide⟩

/-- Witness for C7 at concrete inputs: the name `stats.Bad-M#tric%name`
(22 characters, accepted) is normalized in the submitted payload. -/
theorem metric_name_validation_witness :
    (sendToStackdriver false ⟨"m", none, 20, false, none, []⟩
        "stats.Bad-M#tric%name" 4 [] none [] none 0).1 =
      ⟨[SdEffect.netCall
          [⟨customMetricNamespace ++ sanitizeMetricName "stats.Bad-M#tric%name",
            [], none, 4, 0⟩]], none⟩ :=
  metric_name_validation.2.1 ⟨"m", none, 20, false, none, []⟩
    "stats.Bad-M#tric%name" 4 0 rfl (by decide)

/-! ## `src/alertlib/asana.py` — name-resolution caches and tags

The three module-level caches (`_CACHED_ASANA_PROJECT_MAP`,
`_CACHED_ASANA_TAG_MAP`, `_CACHED_ASANA_USER_MAP`) are threaded explicitly:
each resolution function takes the cache and returns the possibly updated
cache.  The Asana list API is an oracle `api : Nat → Option (List (String ×
Nat))` indexed by a running request counter (also threaded), where `none` is
a failed call (`_call_asana_api` returning `None`) and `some items` the
listed `(name, id)` (or `(email, id)`) records. -/

/-- One iteration of the cache-building loops for projects/tags:
`if name not in map: map[name] = []` then `map[name].append(id)`. -/
def mapAppendId (m : List (String × List Nat)) (k : String) (v : Nat) :
    List (String × List Nat) :=
  match alookup m k with
  | some vs => ainsert m k (vs ++ [v])
  | none => m ++ [(k, [v])]

/-- The name → list-of-ids map built from one bulk list response (names are
not necessarily unique, so ids accumulate per name). -/
def buildNameMap (items : List (String × Nat)) : List (String × List Nat) :=
  items.foldl (fun m kv => mapAppendId m kv.1 kv.2) []

/-- Python `_get_asana_project_ids(project_name, workspace)`: a nonempty cache is
used directly (`if _CACHED_ASANA_PROJECT_MAP: return ...get(project_name)`);
otherwise one bulk list call is made; on failure `None` is returned with the
cache untouched, on success the cache is built and consulted. -/
def getAsanaProjectIds (name : String) (cache : List (String × List Nat))
    (api : Nat → Option (List (String × Nat))) (reqCount : Nat) :
    Option (List Nat) × List (String × List Nat) × Nat :=
  if !cache.isEmpty then (alookup cache name, cache, reqCount)
  else
    match api reqCount with
    | none => (none, cache, reqCount + 1)
    | some items =>
      let cache' := buildNameMap items
      (alookup cache' name, cache', reqCount + 1)

/-- The lookup loop of `_get_asana_tag_ids`: ids of every known tag name are
accumulated (`extend`); unknown names are dropped (with a logged error). -/
def collectTagIds (names : List String) (cache : List (String × List Nat)) :
    List Nat :=
  names.foldl (fun acc n =>
    match alookup cache n with
    | some ids => acc ++ ids
    | none => acc) []

/-- Python `_get_asana_tag_ids(tag_names, workspace)`: on an empty cache one bulk
list call; `None` on build failure; otherwise lookups against the (possibly
just built) cache. -/
def getAsanaTagIds (tagNames : List String) (cache : List (String × List Nat))
    (api : Nat → Option (List (String × Nat))) (reqCount : Nat) :
    Option (List Nat) × List (String × List Nat) × Nat :=
  if cache.isEmpty then
    match api reqCount with
    | none => (none, cache, reqCount + 1)
    | some items =>
      let cache' := buildNameMap items
      (some (collectTagIds tagNames cache'), cache', reqCount + 1)
  else (some (collectTagIds tagNames cache), cache, reqCount)

/-- The email → id map built by `_get_asana_user_ids` (one id per email,
later records overwrite earlier ones). -/
def buildUserMap (items : List (String × Nat)) : List (String × Nat) :=
  items.foldl (fun m kv => ainsert m kv.1 kv.2) []

/-- The lookup loop of `_get_asana_user_ids`: known emails contribute their
id, unknown emails are dropped (with a logged error). -/
def collectUserIds (emails : List String) (cache : List (String × Nat)) :
    List Nat :=
  emails.foldl (fun acc e =>
    match alookup cache e with
    | some i => acc ++ [i]
    | none => acc) []

/-- Python `_get_asana_user_ids(user_emails, workspace)`: on an empty cache one bulk
list call; `[]` on build failure; otherwise lookups against the cache. -/
def getAsanaUserIds (emails : List String) (cache : List (String × Nat))
    (api : Nat → Option (List (String × Nat))) (reqCount : Nat) :
    List Nat × List (String × Nat) × Nat :=
  if cache.isEmpty then
    match api reqCount with
    | none => ([], cache, reqCount + 1)
    | some items =>
      let cache' := buildUserMap items
      (collectUserIds emails cache', cache', reqCount + 1)
  else (collectUserIds emails cache, cache, reqCount)

theorem mapAppendId_ne_nil (m : List (String × List Nat)) (k : String) (v : Nat) :
    mapAppendId m k v ≠ [] := by
  unfold mapAppendId
  cases alookup m k with
  | none => simp
  | some vs => exact ainsert_ne_nil m k (vs ++ [v])

theorem buildNameMap_ne_nil (items : List (String × Nat)) (h : items ≠ []) :
    buildNameMap items ≠ [] := by
  have step : ∀ (is : List (String × Nat)) (m : List (String × List Nat)), m ≠ [] →
      is.foldl (fun m kv => mapAppendId m kv.1 kv.2) m ≠ [] := by
    intro is
    induction is with
    | nil => intro m hm; simpa using hm
    | cons i is ih =>
      intro m _
      exact ih (mapAppendId m i.1 i.2) (mapAppendId_ne_nil m i.1 i.2)
  cases items with
  | nil => exact absurd rfl h
  | cons i is =>
    simpa [buildNameMap] using step is (mapAppendId [] i.1 i.2) (mapAppendId_ne_nil [] i.1 i.2)

theorem buildUserMap_ne_nil (items : List (String × Nat)) (h : items ≠ []) :
    buildUserMap items ≠ [] := by
  have step : ∀ (is : List (String × Nat)) (m : List (String × Nat)), m ≠ [] →
      is.foldl (fun m kv => ainsert m kv.1 kv.2) m ≠ [] := by
    intro is
    induction is with
    | nil => intro m hm; simpa using hm
    | cons i is ih =>
      intro m _
      exact ih (ainsert m i.1 i.2) (ainsert_ne_nil m i.1 i.2)
  cases items with
  | nil => exact absurd rfl h
  | cons i is =>
    simpa [buildUserMap] using step is (ainsert [] i.1 i.2) (ainsert_ne_nil [] i.1 i.2)

/-! ### C8 — name-resolution caching -/

/-- C8 counterexample: the claim says the first resolution call populates the
process-wide cache and every later call of that kind issues zero additional
list requests.  But when the first bulk list succeeds with zero records the
cache stays empty (the code gates on cache *non-emptiness*), so a second
resolution issues a second list request. -/
theorem asana_cache_refetch_counterexample :
    (getAsanaProjectIds "Design"
        (getAsanaProjectIds "Engineering support" []
          (fun _ => some []) 0).2.1
        (fun _ => some [])
        (getAsanaProjectIds "Engineering support" []
          (fun _ => some []) 0).2.2).2.2 = 2 ∧ (2 : Nat) ≠ 1 := by
  constructor
  · rfl
  · decide

/-- C8 amended: for each identifier kind (project, tag, user), a resolution
call on an empty cache issues exactly one bulk list request and — provided
the call succeeds and returns at least one record — populates the cache with
the map built from the response, which is nonempty; every resolution call on
a nonempty cache issues zero requests, leaves the cache exactly as it was
(never invalidated or refreshed, so a name added upstream later is never
found), and answers from the cache alone.  (When the bulk call fails or
returns zero records the cache stays empty and the next call fetches again —
that is the corrected part of the claim.) -/
theorem asana_cache_population :
    (∀ (name : String) (api : Nat → Option (List (String × Nat)))
        (n : Nat) (items : List (String × Nat)),
        api n = some items → items ≠ [] →
        getAsanaProjectIds name [] api n =
          (alookup (buildNameMap items) name, buildNameMap items, n + 1) ∧
        buildNameMap items ≠ []) ∧
    (∀ (name : String) (cache : List (String × List Nat))
        (api : Nat → Option (List (String × Nat))) (n : Nat), cache ≠ [] →
        getAsanaProjectIds name cache api n = (alookup cache name, cache, n)) ∧
    (∀ (names : List String) (api : Nat → Option (List (String × Nat)))
        (n : Nat) (items : List (String × Nat)),
        api n = some items → items ≠ [] →
        getAsanaTagIds names [] api n =
          (some (collectTagIds names (buildNameMap items)), buildNameMap items, n + 1) ∧
        buildNameMap items ≠ []) ∧
    (∀ (names : List String) (cache : List (String × List Nat))
        (api : Nat → Option (List (String × Nat))) (n : Nat), cache ≠ [] →
        getAsanaTagIds names cache api n = (some (collectTagIds names cache), cache, n)) ∧
    (∀ (emails : List String) (api : Nat → Option (List (String × Nat)))
        (n : Nat) (items : List (String × Nat)),
        api n = some items → items ≠ [] →
        getAsanaUserIds emails [] api n =
          (collectUserIds emails (buildUserMap items), buildUserMap items, n + 1) ∧
        buildUserMap items ≠ []) ∧
    (∀ (emails : List String) (cache : List (String × Nat))
        (api : Nat → Option (List (String × Nat))) (n : Nat), cache ≠ [] →
        getAsanaUserIds emails cache api n = (collectUserIds emails cache, cache, n)) := by
  refine ⟨?_, ?_, ?_, ?_, ?_, ?_⟩
  · intro name api n items hapi hne
    refine ⟨?_, buildNameMap_ne_nil items hne⟩
    simp [getAsanaProjectIds, hapi]
  · intro name cache api n hne
    simp [getAsanaProjectIds, hne]
  · intro names api n items hapi hne
    refine ⟨?_, buildNameMap_ne_nil items hne⟩
    simp [getAsanaTagIds, hapi]
  · intro names cache api n hne
    simp [getAsanaTagIds, hne]
  · intro emails api n items hapi hne
    refine ⟨?_, buildUserMap_ne_nil items hne⟩
    simp [getAsanaUserIds, hapi]
  · intro emails cache api n hne
    simp [getAsanaUserIds, hne]

/-- Witness for C8 (amended) at concrete inputs: the first project resolution
lists once and caches; a second resolution of a *different* name against the
now-nonempty cache issues zero additional requests. -/
theorem asana_cache_population_witness :
    getAsanaProjectIds "Engineering support" []
        (fun _ => some [("Engineering support", 7)]) 0 =
      (alookup (buildNameMap [("Engineering support", 7)]) "Engineering support",
        buildNameMap [("Engineering support", 7)], 1) ∧
    getAsanaProjectIds "Design" [("Engineering support", [7])]
        (fun _ => some [("Engineering support", 7)]) 1 =
      (alookup [("Engineering support", [7])] "Design",
        [("Engineering support", [7])], 1) :=
  ⟨(asana_cache_population.1 "Engineering support"
      (fun _ => some [("Engineering support", 7)]) 0
      [("Engineering support", 7)] rfl (by decide)).1,
   asana_cache_population.2.1 "Design" [("Engineering support", [7])]
      (fun _ => some [("Engineering support", 7)]) 1 (by decide)⟩

/-! ### C9 — priority tags and the implicit "Auto generated" tag -/

/-- Python `_LOG_PRIORITY_TO_ASANA_TAG`. -/
def logPriorityToAsanaTag : List (Nat × String) :=
  [(20, "P4"), (30, "P3"), (40, "P2"), (50, "P1")]

/-- Python `set(_LOG_PRIORITY_TO_ASANA_TAG.values())`, the reserved priority tags. -/
def asanaPTags : List String := logPriorityToAsanaTag.map Prod.snd

/-- The tag-assembly slice of `Mixin.send_to_asana`: compute
`existing_p_tags = set(tags) ∩ p_tags`; append the severity-derived tag when
one exists and no reserved priority tag was supplied; always append
`'Auto generated'` last. -/
def addAsanaTags (tags : List String) (severity : Nat) : List String :=
  let existingPTags := tags.filter (fun t => asanaPTags.contains t)
  let tags' :=
    match alookup logPriorityToAsanaTag severity with
    | some t => if existingPTags.isEmpty then tags ++ [t] else tags
    | none => tags
  tags' ++ ["Auto generated"]

/-- C9: if the caller-supplied tag list already contains a reserved priority
tag (P1–P4) then no severity-derived tag is appended; otherwise the severity's
tag is appended when the severity has one; and `"Auto generated"` is always
appended as the last element. -/
theorem asana_priority_tags (tags : List String) (sev : Nat) :
    ((∃ t ∈ tags, t ∈ asanaPTags) →
        addAsanaTags tags sev = tags ++ ["Auto generated"]) ∧
    ((¬ ∃ t ∈ tags, t ∈ asanaPTags) →
        addAsanaTags tags sev =
          tags ++ (alookup logPriorityToAsanaTag sev).toList ++ ["Auto generated"]) ∧
    (addAsanaTags tags sev).getLast? = some "Auto generated" := by
  have hmem : tags.filter (fun t => asanaPTags.contains t) = [] ↔
      ¬ ∃ t ∈ tags, t ∈ asanaPTags := by
    simp [List.filter_eq_nil_iff]
  refine ⟨?_, ?_, ?_⟩
  · intro hex
    have hfil : tags.filter (fun t => asanaPTags.contains t) ≠ [] := by
      intro hnil
      exact (hmem.1 hnil) hex
    unfold addAsanaTags
    cases halo : alookup logPriorityToAsanaTag sev <;>
      simp [List.isEmpty_iff, hfil]
    exact hex
  · intro hnex
    have hfil : tags.filter (fun t => asanaPTags.contains t) = [] := hmem.2 hnex
    push_neg at hnex
    unfold addAsanaTags
    cases halo : alookup logPriorityToAsanaTag sev <;>
      simp [List.isEmpty_iff, hfil, hnex]
    rw [if_pos hnex]
    simp
  · unfold addAsanaTags
    cases halo : alookup logPriorityToAsanaTag sev <;>
      [skip; rename_i t] <;>
      [simp [List.getLast?_concat];
       by_cases hp : (tags.filter (fun t => asanaPTags.contains t)).isEmpty = true <;>
         simp [hp, List.getLast?_concat]]

/-- Witness for C9 at concrete inputs: a caller-supplied `P2` suppresses the
severity tag of INFO (20), and `"Auto generated"` still comes last. -/
theorem asana_priority_tags_witness :
    addAsanaTags ["P2", "quick"] 20 = ["P2", "quick"] ++ ["Auto generated"] :=
  (asana_priority_tags ["P2", "quick"] 20).1 ⟨"P2", by decide, by decide⟩

/-! ## `src/alertlib/jira.py` — issue creation and duplicate suppression -/

/-- Python `_BUGTRACKER_TO_JIRA_PROJ`. -/
def bugtrackerToJiraProj : List (String × String) :=
  [("Architecture", "ARCH"), ("Teacher Experience", "CLASS"),
   ("Content Library", "CL"), ("Content Platform", "CP"),
   ("Data Infrastructure", "DI"), ("Districts", "DIST"),
   ("Frontend Infrastructure", "FEI"), ("Tutor Platform", "TUT"),
   ("Infrastructure", "INFRA"), ("Learning Components", "LC"),
   ("Marketing & Philanthropy Product", "MPP"), ("MPP", "MPP"),
   ("Classroom", "CLASS"), ("Learning Platform", "LP"), ("Test Prep", "TP"),
   ("Guided Learning", "GL"), ("Test", "TEST")]

/-- Python `_PROJECT_TO_ISSUETYPE_ID`. -/
def projectToIssuetypeId : List (String × String) :=
  [("ARCH", "10201"), ("CLASS", "10201"), ("CL", "10201"), ("CP", "10201"),
   ("DI", "10201"), ("DIST", "10201"), ("FEI", "10201"), ("GL", "10201"),
   ("INFRA", "10103"), ("LC", "10201"), ("MPP", "10201"), ("LP", "10201"),
   ("TP", "10201"), ("TEST", "10201"), ("TUTT", "10201")]

/-- Python `_SEVERITY_TO_JIRA_PRIORITY`. -/
def severityToJiraPriority : List (Nat × String) :=
  [(50, "2"), (40, "3"), (30, "4"), (20, "5"), (10, "5"), (0, "5")]

/-- The JQL string built by `_check_issue_already_exists`:
`'project="%s" AND summary~"%s" AND status!="Done"' % (project, summary)`. -/
def buildJql (project summary : String) : String :=
  "project=\"" ++ project ++ "\" AND summary~\"" ++ summary ++
    "\" AND status!=\"Done\""

/-- Python string interpolation of a possibly-`None` value:
`'%s' % None` renders as the literal string `"None"`. -/
def pyFormatOptStr : Option String → String
  | none => "None"
  | some s => s

/-- Python `_format_labels` on one label: `'_'.join(label.split())` — split on
whitespace runs (dropping empty fields, as Python `str.split()` with no
argument does) and re-join with `_`. -/
def formatLabel (label : String) : String :=
  String.intercalate "_"
    (((label.data.splitOnP Char.isWhitespace).filter (fun p => p ≠ [])).map String.mk)

/-- The Jira REST API as seen by `_send_to_jira`: the project keys returned
by `_get_jira_project_keys` (already `or []`, so a failed call is the empty
list), and the `total` field of the `/search` response for a given JQL query
(`none` = the call failed, which `_make_jira_api_call` turns into `None`). -/
structure JiraApi where
  projectKeys : List String
  searchTotal : String → Option Nat

/-- Python `_check_issue_already_exists(project, summary)`: query `/search` with the
JQL above; a failed call is treated as "not a duplicate" (`False`); otherwise
duplicate iff `res['total'] > 0`. -/
def checkIssueAlreadyExists (api : JiraApi) (project summary : String) : Bool :=
  match api.searchTotal (buildJql project summary) with
  | none => false
  | some total => decide (0 < total)

/-- The observable effects of `_send_to_jira` (watchers are passed empty, so
the `_get_jira_usernames` / `_add_watchers` traffic does not occur). -/
inductive JiraEffect where
  | listProjects
  | searchIssues (jql : String)
  | createIssue (title priority issueType projectKey : String) (labels : List String)
  | logWouldSend (title : String)
deriving DecidableEq

/-- The result of `_send_to_jira`: performed effects plus the uncaught
exception, if any (`KeyError` from the two direct dict indexings). -/
structure JiraResult where
  effects : List JiraEffect
  raised : Option String
deriving DecidableEq

/-- Python `Mixin._send_to_jira(project_name, labels, watchers=[])`: rate limit;
map the project name (`None` key gives `None`); verify the key against the
listed project keys (a nonempty list not containing the key aborts; an empty
list only logs); direct dict indexings for issue type and priority (KeyError
propagates); `issue_title = self._get_summary() or 'New Auto generated Jira
task'`; append `'auto_generated'` to the labels and format them; then in
test mode only log — otherwise run the duplicate check **with
`self.summary`, the raw attribute** (not `issue_title`), and create the
issue only when it reports no duplicate. -/
def sendToJira (testMode : Bool) (a : Alert) (projectName : Option String)
    (labels : List String) (api : JiraApi) (now : ℚ) : JiraResult × Alert :=
  match passedRateLimit a "jira" now with
  | (false, a') => (⟨[], none⟩, a')
  | (true, a') =>
    match projectName.bind (alookup bugtrackerToJiraProj) with
    | none => (⟨[], none⟩, a')
    | some projectKey =>
      if !api.projectKeys.isEmpty && !api.projectKeys.contains projectKey then
        (⟨[.listProjects], none⟩, a')
      else
        match alookup projectToIssuetypeId projectKey with
        | none => (⟨[.listProjects], some "KeyError"⟩, a')
        | some issueType =>
          match alookup severityToJiraPriority a.severity with
          | none => (⟨[.listProjects], some "KeyError"⟩, a')
          | some priority =>
            let issueTitle :=
              if getSummary a = "" then "New Auto generated Jira task"
              else getSummary a
            let jiraLabels := (labels ++ ["auto_generated"]).map formatLabel
            if testMode then
              (⟨[.listProjects, .logWouldSend issueTitle], none⟩, a')
            else
              let jql := buildJql projectKey (pyFormatOptStr a.summary)
              if checkIssueAlreadyExists api projectKey (pyFormatOptStr a.summary) then
                (⟨[.listProjects, .searchIssues jql], none⟩, a')
              else
                (⟨[.listProjects, .searchIssues jql,
                   .createIssue issueTitle priority issueType projectKey jiraLabels],
                  none⟩, a')

/-! ### C4 — bugtracker duplicate suppression -/

/-- The failing input for C4: an Alert with no explicit summary whose derived
candidate title is "Disk full". -/
def jiraDupAlert : Alert := ⟨"Disk full", none, 20, false, none, []⟩

/-- A Jira backend in which project INFRA exists and exactly one non-closed
issue titled "Disk full" exists: the search for the candidate title reports
`total = 1`, any other search reports `total = 0`. -/
def jiraDupApi : JiraApi :=
  ⟨["INFRA"],
   fun jql => if jql = buildJql "INFRA" "Disk full" then some 1 else some 0⟩

/-- C4, evaluated at the failing input: an open issue with the candidate
title "Disk full" exists in the resolved project, yet `_send_to_jira` queries
the duplicate check with the *raw* `self.summary` attribute — which is
`None`, rendered as the literal string `"None"` — instead of the candidate
title, finds nothing, and proceeds to create a duplicate issue.  The JQL
actually sent does not even mention the candidate title. -/
theorem sendToJira_dup_check_uses_raw_summary :
    (sendToJira false jiraDupAlert (some "Infrastructure") [] jiraDupApi 0).1 =
      ⟨[.listProjects, .searchIssues (buildJql "INFRA" "None"),
        .createIssue "Disk full" "5" "10103" "INFRA" ["auto_generated"]],
       none⟩ ∧
    getSummary jiraDupAlert = "Disk full" ∧
    strContains (buildJql "INFRA" "None") "Disk full" = false ∧
    jiraDupApi.searchTotal (buildJql "INFRA" "Disk full") = some 1 := by
  refine ⟨?_, rfl, ?_, ?_⟩
  · rfl
  · decide
  · decide

end Alertlib
